import Mathlib

/-
Verification of the SeaweedS3Client repository (src/SeaweedS3Client/client.py).

The file shallowly embeds the S3Handler facade.  The boto3 SDK client is an
external collaborator: it is modelled as a record of oracle functions, one per
SDK method the facade calls, each returning either a normal result or a raised
Python exception.  Python exceptions are modelled by the type PyErr, which
distinguishes botocore ClientError (the only class several methods catch) from
other exceptions.  Each facade method returns a Ret record carrying the normal
return value or the escaping exception, the list of errors passed to
logging.error, and the handler object after the call (the source never assigns
to self outside of the constructor, which the embedding makes visible by
returning the handler).
-/

set_option autoImplicit false

namespace SeaweedS3Client

/-- A raised Python exception, as the facade distinguishes them:
botocore.exceptions.ClientError, AttributeError (raised when reading a missing
attribute such as the name of a nameless buffer) and every other Exception. -/
inductive PyErr where
  | clientError (msg : String)
  | attributeError (msg : String)
  | otherError (msg : String)
deriving DecidableEq

/-- Whether an exception is caught by an except-ClientError clause. -/
def PyErr.isClientError : PyErr → Bool
  | .clientError _ => true
  | _ => false

/-- A bucket descriptor as found in the Buckets entry of a list_buckets
response. -/
structure Bucket where
  Name : String
deriving DecidableEq

/-- The response dict of the SDK call list_buckets; the facade reads its
Buckets entry. -/
structure ListBucketsResponse where
  Buckets : List Bucket
deriving DecidableEq

/-- The dict built by create_bucket when a region is given:
location = \x7b'LocationConstraint': region\x7d. -/
structure CreateBucketConfiguration where
  LocationConstraint : String
deriving DecidableEq

/-- An SDK response dict returned verbatim to the caller (delete_object). -/
structure SDKResponse where
  ResponseMetadata : List (String × String)
deriving DecidableEq

/-- The dict returned by generate_presigned_post: the URL and the required
POST form fields. -/
structure PresignedPost where
  url : String
  fields : List (String × String)
deriving DecidableEq

/-- An open binary stream handed to upload_file_binary.  Its name attribute is
the associated file name; none models a buffer with no such attribute, whose
name access raises AttributeError. -/
structure BufferedReader where
  name : Option String
  data : List Nat
deriving DecidableEq

/-- An in-memory byte stream from the io module: contents and current
position. -/
structure BytesIO where
  data : List Nat
  pos : Nat
deriving DecidableEq

/-- Writing bytes at the current position of a byte stream, overwriting in
place and advancing the position, as BytesIO.write does. -/
def BytesIO.write (buf : BytesIO) (bs : List Nat) : BytesIO :=
  { data := buf.data.take buf.pos ++ bs ++ buf.data.drop (buf.pos + bs.length)
    pos := buf.pos + bs.length }

/-- BytesIO.seek: set the current position. -/
def BytesIO.seek (buf : BytesIO) (p : Nat) : BytesIO :=
  { buf with pos := p }

/-- os.path.basename on a POSIX path: the part after the last slash. -/
def basename (path : String) : String :=
  (path.splitOn "/").getLastD path

/-- The behaviour of the boto3 S3 client the facade holds: one oracle function
per SDK method called by the source, each either returning normally or raising
an exception. -/
structure SDK where
  list_buckets : Except PyErr ListBucketsResponse
  create_bucket : String → Option CreateBucketConfiguration → Except PyErr Unit
  delete_bucket : String → Except PyErr Unit
  upload_file : String → String → String → Except PyErr Unit
  upload_fileobj : BufferedReader → String → String → Except PyErr Unit
  delete_object : String → String → Except PyErr SDKResponse
  download_fileobj : String → String → Except PyErr (List Nat)
  generate_presigned_url : String → String → String → Int → Except PyErr String
  generate_presigned_post : String → String → Int → Except PyErr PresignedPost

/-- The S3Handler object: the three credential fields stored by the
constructor and the boto3 client built from them. -/
structure S3Handler where
  url : String
  access_key : String
  secret_key : String
  client : SDK

/-- The outcome of one facade method call: the value returned normally or the
exception that escapes, the errors passed to logging.error in order, and the
handler object as it stands after the call. -/
structure Ret (α : Type) where
  outcome : Except PyErr α
  log : List PyErr
  self : S3Handler

/-- get_buckets: forward list_buckets and return the Buckets entry of the
response; nothing is caught or logged. -/
def S3Handler.get_buckets (self : S3Handler) : Ret (List Bucket) :=
  match self.client.list_buckets with
  | .ok response => { outcome := .ok response.Buckets, log := [], self := self }
  | .error e => { outcome := .error e, log := [], self := self }

/-- The body of the try block of create_bucket: call the SDK without a
configuration when region is None, with one otherwise. -/
def S3Handler.create_bucket_request (self : S3Handler) (name : String)
    (region : Option String) : Except PyErr Unit :=
  match region with
  | none => self.client.create_bucket name none
  | some r => self.client.create_bucket name (some { LocationConstraint := r })

/-- create_bucket: try the SDK call; on ClientError log it and return False;
return True after the try block; any other exception escapes. -/
def S3Handler.create_bucket (self : S3Handler) (name : String)
    (region : Option String := none) : Ret Bool :=
  match self.create_bucket_request name region with
  | .ok _ => { outcome := .ok true, log := [], self := self }
  | .error e =>
    if e.isClientError then { outcome := .ok false, log := [e], self := self }
    else { outcome := .error e, log := [], self := self }

/-- delete_bucket: try the SDK call and return True; on any Exception log it
and return True as well. -/
def S3Handler.delete_bucket (self : S3Handler) (name : String) : Ret Bool :=
  match self.client.delete_bucket name with
  | .ok _ => { outcome := .ok true, log := [], self := self }
  | .error e => { outcome := .ok true, log := [e], self := self }

/-- upload_file: default the object name to the basename of the path, try the
SDK upload and build the s3 URI; on ClientError log it and return
(False, None); return (True, uri) after the try block. -/
def S3Handler.upload_file (self : S3Handler) (path_to_file : String)
    (bucket_name : String) (object_name : Option String := none) :
    Ret (Bool × Option String) :=
  let object_name :=
    match object_name with
    | none => basename path_to_file
    | some o => o
  match self.client.upload_file path_to_file bucket_name object_name with
  | .ok _ =>
    { outcome := .ok (true, some ("s3://" ++ bucket_name ++ "/" ++ object_name))
      log := [], self := self }
  | .error e =>
    if e.isClientError then { outcome := .ok (false, none), log := [e], self := self }
    else { outcome := .error e, log := [], self := self }

/-- upload_file_binary: default the object name to the basename of the buffer
name (reading it raises AttributeError, before the try block, when the buffer
has no name), then as upload_file but through upload_fileobj. -/
def S3Handler.upload_file_binary (self : S3Handler) (buffer : BufferedReader)
    (bucket_name : String) (object_name : Option String := none) :
    Ret (Bool × Option String) :=
  let resolved : Except PyErr String :=
    match object_name with
    | some o => .ok o
    | none =>
      match buffer.name with
      | some n => .ok (basename n)
      | none => .error (PyErr.attributeError "object has no attribute name")
  match resolved with
  | .error e => { outcome := .error e, log := [], self := self }
  | .ok object_name =>
    match self.client.upload_fileobj buffer bucket_name object_name with
    | .ok _ =>
      { outcome := .ok (true, some ("s3://" ++ bucket_name ++ "/" ++ object_name))
        log := [], self := self }
    | .error e =>
      if e.isClientError then { outcome := .ok (false, none), log := [e], self := self }
      else { outcome := .error e, log := [], self := self }

/-- delete_object: try the SDK call and return (True, response); on any
Exception log it and return (False, None). -/
def S3Handler.delete_object (self : S3Handler) (bucket_name object_name : String) :
    Ret (Bool × Option SDKResponse) :=
  match self.client.delete_object bucket_name object_name with
  | .ok response => { outcome := .ok (true, some response), log := [], self := self }
  | .error e => { outcome := .ok (false, none), log := [e], self := self }

/-- download_object: make a fresh BytesIO, have the SDK write the object bytes
into it, seek back to the start and return (True, buffer); on any Exception
log it and return (False, None). -/
def S3Handler.download_object (self : S3Handler) (bucket_name object_name : String) :
    Ret (Bool × Option BytesIO) :=
  let buffer : BytesIO := { data := [], pos := 0 }
  match self.client.download_fileobj bucket_name object_name with
  | .ok bs =>
    let buffer := buffer.write bs
    let buffer := buffer.seek 0
    { outcome := .ok (true, some buffer), log := [], self := self }
  | .error e => { outcome := .ok (false, none), log := [e], self := self }

/-- get_presigned_download_url: forward to generate_presigned_url for
get_object with the given expiration (3600 when omitted); on ClientError log
it and return None. -/
def S3Handler.get_presigned_download_url (self : S3Handler)
    (bucket_name object_name : String) (expiration : Int := 3600) :
    Ret (Option String) :=
  match self.client.generate_presigned_url "get_object" bucket_name object_name expiration with
  | .ok response => { outcome := .ok (some response), log := [], self := self }
  | .error e =>
    if e.isClientError then { outcome := .ok none, log := [e], self := self }
    else { outcome := .error e, log := [], self := self }

/-- get_presigned_upload_url: forward to generate_presigned_post with the
given expiration (3600 when omitted) and return its response (URL plus
required fields); on ClientError log it and return None. -/
def S3Handler.get_presigned_upload_url (self : S3Handler)
    (bucket_name object_name : String) (expiration : Int := 3600) :
    Ret (Option PresignedPost) :=
  match self.client.generate_presigned_post bucket_name object_name expiration with
  | .ok response => { outcome := .ok (some response), log := [], self := self }
  | .error e =>
    if e.isClientError then { outcome := .ok none, log := [e], self := self }
    else { outcome := .error e, log := [], self := self }

/-- An SDK whose every call succeeds, for concrete evaluation. -/
def sdkOk : SDK where
  list_buckets := .ok { Buckets := [{ Name := "alpha" }, { Name := "beta" }] }
  create_bucket := fun _ _ => .ok ()
  delete_bucket := fun _ => .ok ()
  upload_file := fun _ _ _ => .ok ()
  upload_fileobj := fun _ _ _ => .ok ()
  delete_object := fun _ _ => .ok { ResponseMetadata := [("HTTPStatusCode", "204")] }
  download_fileobj := fun _ _ => .ok [104, 105]
  generate_presigned_url := fun _ b k _ => .ok ("http://host/" ++ b ++ "/" ++ k)
  generate_presigned_post := fun b k _ => .ok { url := "http://host/" ++ b, fields := [("key", k)] }

/-- An SDK whose every call raises a botocore ClientError. -/
def sdkClientErr : SDK where
  list_buckets := .error (PyErr.clientError "denied")
  create_bucket := fun _ _ => .error (PyErr.clientError "denied")
  delete_bucket := fun _ => .error (PyErr.clientError "denied")
  upload_file := fun _ _ _ => .error (PyErr.clientError "denied")
  upload_fileobj := fun _ _ _ => .error (PyErr.clientError "denied")
  delete_object := fun _ _ => .error (PyErr.clientError "denied")
  download_fileobj := fun _ _ => .error (PyErr.clientError "denied")
  generate_presigned_url := fun _ _ _ _ => .error (PyErr.clientError "denied")
  generate_presigned_post := fun _ _ _ => .error (PyErr.clientError "denied")

/-- An SDK whose every call raises an exception that is not a ClientError. -/
def sdkCrash : SDK where
  list_buckets := .error (PyErr.otherError "boom")
  create_bucket := fun _ _ => .error (PyErr.otherError "boom")
  delete_bucket := fun _ => .error (PyErr.otherError "boom")
  upload_file := fun _ _ _ => .error (PyErr.otherError "boom")
  upload_fileobj := fun _ _ _ => .error (PyErr.otherError "boom")
  delete_object := fun _ _ => .error (PyErr.otherError "boom")
  download_fileobj := fun _ _ => .error (PyErr.otherError "boom")
  generate_presigned_url := fun _ _ _ _ => .error (PyErr.otherError "boom")
  generate_presigned_post := fun _ _ _ => .error (PyErr.otherError "boom")

/-- A handler over the all-succeeding SDK. -/
def handlerOk : S3Handler :=
  { url := "http://localhost:3333", access_key := "any", secret_key := "any", client := sdkOk }

/-- A handler over the ClientError-raising SDK. -/
def handlerClientErr : S3Handler :=
  { url := "http://localhost:3333", access_key := "any", secret_key := "any", client := sdkClientErr }

/-- A handler over the SDK raising non-ClientError exceptions. -/
def handlerCrash : S3Handler :=
  { url := "http://localhost:3333", access_key := "any", secret_key := "any", client := sdkCrash }

/-- C1: delete_bucket returns True whether the SDK delete call succeeds or
raises any exception, and in the raising case the exception is logged. -/
theorem delete_bucket_always_true (self : S3Handler) (name : String) :
    (self.delete_bucket name).outcome = Except.ok true
    ∧ ∀ e, self.client.delete_bucket name = Except.error e →
        (self.delete_bucket name).log = [e] := by
  constructor
  · unfold S3Handler.delete_bucket
    split <;> rfl
  · intro e he
    unfold S3Handler.delete_bucket
    rw [he]

/-- Witness for C1 at a concretely failing SDK: the delete call raises, the
method still answers True and logs the exception. -/
theorem delete_bucket_always_true_witness :
    handlerCrash.client.delete_bucket "gone" = Except.error (PyErr.otherError "boom")
    ∧ (handlerCrash.delete_bucket "gone").outcome = Except.ok true
    ∧ (handlerCrash.delete_bucket "gone").log = [PyErr.otherError "boom"] :=
  ⟨rfl, (delete_bucket_always_true handlerCrash "gone").1,
    (delete_bucket_always_true handlerCrash "gone").2 (PyErr.otherError "boom") rfl⟩

/-- C2 counterexample: when the SDK create-bucket call raises an exception
that is not a ClientError, the exception escapes create_bucket instead of
being logged and turned into False. -/
theorem create_bucket_other_error_escapes :
    (handlerCrash.create_bucket "bucket" none).outcome = Except.error (PyErr.otherError "boom")
    ∧ (handlerCrash.create_bucket "bucket" none).outcome ≠ Except.ok false
    ∧ (handlerCrash.create_bucket "bucket" none).log = [] := by
  have h1 : (handlerCrash.create_bucket "bucket" none).outcome
      = Except.error (PyErr.otherError "boom") := rfl
  refine ⟨h1, ?_, rfl⟩
  rw [h1]
  exact fun h => Except.noConfusion h

/-- C2 amended: if the SDK create-bucket call raises a ClientError,
create_bucket logs it and returns False; if the call succeeds it returns
True.  (Exceptions that are not ClientError propagate to the caller.) -/
theorem create_bucket_clienterror_spec (self : S3Handler) (name : String)
    (region : Option String) :
    (self.create_bucket_request name region = Except.ok () →
      (self.create_bucket name region).outcome = Except.ok true)
    ∧ ∀ msg, self.create_bucket_request name region = Except.error (PyErr.clientError msg) →
        (self.create_bucket name region).outcome = Except.ok false
        ∧ (self.create_bucket name region).log = [PyErr.clientError msg] := by
  constructor
  · intro hok
    unfold S3Handler.create_bucket
    rw [hok]
  · intro msg herr
    unfold S3Handler.create_bucket
    rw [herr]
    exact ⟨rfl, rfl⟩

/-- Witness for the amended C2: a concrete ClientError is logged and turned
into False, and a concrete success is turned into True. -/
theorem create_bucket_clienterror_spec_witness :
    handlerClientErr.create_bucket_request "b" none = Except.error (PyErr.clientError "denied")
    ∧ (handlerClientErr.create_bucket "b" none).outcome = Except.ok false
    ∧ (handlerClientErr.create_bucket "b" none).log = [PyErr.clientError "denied"]
    ∧ handlerOk.create_bucket_request "b" (some "us-east-1") = Except.ok ()
    ∧ (handlerOk.create_bucket "b" (some "us-east-1")).outcome = Except.ok true :=
  ⟨rfl,
    ((create_bucket_clienterror_spec handlerClientErr "b" none).2 "denied" rfl).1,
    ((create_bucket_clienterror_spec handlerClientErr "b" none).2 "denied" rfl).2,
    rfl,
    (create_bucket_clienterror_spec handlerOk "b" (some "us-east-1")).1 rfl⟩

/-- C3: when object_name is omitted, upload_file uses the basename of the
source path as the object key, and upload_file_binary uses the basename of
the name associated with the buffer. -/
theorem upload_default_object_name (self : S3Handler) (path bucket n : String)
    (buf : BufferedReader) (h : buf.name = some n) :
    self.upload_file path bucket = self.upload_file path bucket (some (basename path))
    ∧ self.upload_file_binary buf bucket
        = self.upload_file_binary buf bucket (some (basename n)) := by
  constructor
  · rfl
  · unfold S3Handler.upload_file_binary
    rw [h]

/-- Witness for C3 at concrete inputs: the defaulted key equals the basename
of the path, respectively of the buffer name. -/
theorem upload_default_object_name_witness :
    (BufferedReader.mk (some "/tmp/cfg/s3_config.json") [1]).name = some "/tmp/cfg/s3_config.json"
    ∧ handlerOk.upload_file "/tmp/cfg/s3_config.json" "testbucket"
        = handlerOk.upload_file "/tmp/cfg/s3_config.json" "testbucket" (some (basename "/tmp/cfg/s3_config.json"))
    ∧ handlerOk.upload_file_binary (BufferedReader.mk (some "/tmp/cfg/s3_config.json") [1]) "testbucket"
        = handlerOk.upload_file_binary (BufferedReader.mk (some "/tmp/cfg/s3_config.json") [1]) "testbucket"
            (some (basename "/tmp/cfg/s3_config.json")) :=
  ⟨rfl,
    (upload_default_object_name handlerOk "/tmp/cfg/s3_config.json" "testbucket"
      "/tmp/cfg/s3_config.json" (BufferedReader.mk (some "/tmp/cfg/s3_config.json") [1]) rfl).1,
    (upload_default_object_name handlerOk "/tmp/cfg/s3_config.json" "testbucket"
      "/tmp/cfg/s3_config.json" (BufferedReader.mk (some "/tmp/cfg/s3_config.json") [1]) rfl).2⟩

/-- C4 counterexample: when the SDK upload raises an exception that is not a
ClientError, upload_file does not return (False, None); the exception escapes
to the caller. -/
theorem upload_file_other_error_escapes :
    (handlerCrash.upload_file "/tmp/a.txt" "b" (some "a.txt")).outcome
      = Except.error (PyErr.otherError "boom")
    ∧ (handlerCrash.upload_file "/tmp/a.txt" "b" (some "a.txt")).outcome
      ≠ Except.ok (false, none) := by
  have h1 : (handlerCrash.upload_file "/tmp/a.txt" "b" (some "a.txt")).outcome
      = Except.error (PyErr.otherError "boom") := rfl
  refine ⟨h1, ?_⟩
  rw [h1]
  exact fun h => Except.noConfusion h

/-- C4 amended: upload_file returns a pair: (True, a URI string) when the SDK
upload succeeds, and (False, None) when the SDK upload raises a ClientError,
which is logged.  (An exception that is not a ClientError propagates.) -/
theorem upload_file_result_pair (self : S3Handler) (path bucket k : String) :
    (self.client.upload_file path bucket k = Except.ok () →
      ∃ uri, (self.upload_file path bucket (some k)).outcome = Except.ok (true, some uri))
    ∧ ∀ msg, self.client.upload_file path bucket k = Except.error (PyErr.clientError msg) →
        (self.upload_file path bucket (some k)).outcome = Except.ok (false, none)
        ∧ (self.upload_file path bucket (some k)).log = [PyErr.clientError msg] := by
  constructor
  · intro hok
    refine ⟨"s3://" ++ bucket ++ "/" ++ k, ?_⟩
    simp only [S3Handler.upload_file, hok]
  · intro msg herr
    simp only [S3Handler.upload_file, herr]
    exact ⟨rfl, rfl⟩

/-- Witness for the amended C4: a concrete success yields (True, uri), a
concrete ClientError yields (False, None) and a log entry. -/
theorem upload_file_result_pair_witness :
    handlerOk.client.upload_file "/tmp/a.txt" "b" "a.txt" = Except.ok ()
    ∧ (∃ uri, (handlerOk.upload_file "/tmp/a.txt" "b" (some "a.txt")).outcome
        = Except.ok (true, some uri))
    ∧ handlerClientErr.client.upload_file "/tmp/a.txt" "b" "a.txt"
        = Except.error (PyErr.clientError "denied")
    ∧ (handlerClientErr.upload_file "/tmp/a.txt" "b" (some "a.txt")).outcome
        = Except.ok (false, none)
    ∧ (handlerClientErr.upload_file "/tmp/a.txt" "b" (some "a.txt")).log
        = [PyErr.clientError "denied"] :=
  ⟨rfl,
    (upload_file_result_pair handlerOk "/tmp/a.txt" "b" "a.txt").1 rfl,
    rfl,
    ((upload_file_result_pair handlerClientErr "/tmp/a.txt" "b" "a.txt").2 "denied" rfl).1,
    ((upload_file_result_pair handlerClientErr "/tmp/a.txt" "b" "a.txt").2 "denied" rfl).2⟩

/-- C5: get_buckets returns the Buckets sequence of the SDK response when the
SDK call succeeds, and propagates an SDK exception of any kind unchanged; in
neither case does it log anything. -/
theorem get_buckets_passthrough (self : S3Handler) :
    (∀ response, self.client.list_buckets = Except.ok response →
      (self.get_buckets).outcome = Except.ok response.Buckets
      ∧ (self.get_buckets).log = [])
    ∧ ∀ e, self.client.list_buckets = Except.error e →
        (self.get_buckets).outcome = Except.error e
        ∧ (self.get_buckets).log = [] := by
  constructor
  · intro response hok
    unfold S3Handler.get_buckets
    rw [hok]
    exact ⟨rfl, rfl⟩
  · intro e herr
    unfold S3Handler.get_buckets
    rw [herr]
    exact ⟨rfl, rfl⟩

/-- Witness for C5: the concrete bucket list comes through on success, and a
concrete non-ClientError exception escapes unlogged. -/
theorem get_buckets_passthrough_witness :
    handlerOk.client.list_buckets
      = Except.ok { Buckets := [{ Name := "alpha" }, { Name := "beta" }] }
    ∧ (handlerOk.get_buckets).outcome = Except.ok [{ Name := "alpha" }, { Name := "beta" }]
    ∧ handlerCrash.client.list_buckets = Except.error (PyErr.otherError "boom")
    ∧ (handlerCrash.get_buckets).outcome = Except.error (PyErr.otherError "boom")
    ∧ (handlerCrash.get_buckets).log = [] :=
  ⟨rfl,
    ((get_buckets_passthrough handlerOk).1
      { Buckets := [{ Name := "alpha" }, { Name := "beta" }] } rfl).1,
    rfl,
    ((get_buckets_passthrough handlerCrash).2 (PyErr.otherError "boom") rfl).1,
    ((get_buckets_passthrough handlerCrash).2 (PyErr.otherError "boom") rfl).2⟩

/-- C6: download_object returns (True, an in-memory byte stream holding the
bytes the SDK delivered, positioned at the start) when the SDK download
succeeds, and (False, None) when the SDK call raises any exception. -/
theorem download_object_stream (self : S3Handler) (bucket key : String) :
    (∀ bs, self.client.download_fileobj bucket key = Except.ok bs →
      (self.download_object bucket key).outcome
        = Except.ok (true, some { data := bs, pos := 0 }))
    ∧ ∀ e, self.client.download_fileobj bucket key = Except.error e →
        (self.download_object bucket key).outcome = Except.ok (false, none)
        ∧ (self.download_object bucket key).log = [e] := by
  constructor
  · intro bs hok
    unfold S3Handler.download_object
    rw [hok]
    simp [ BytesIO.write, BytesIO.seek]
  · intro e herr
    unfold S3Handler.download_object
    rw [herr]
    exact ⟨rfl, rfl⟩

/-- Witness for C6: a concrete download yields the delivered bytes at
position 0, and a concrete failure yields (False, None). -/
theorem download_object_stream_witness :
    handlerOk.client.download_fileobj "b" "k" = Except.ok [104, 105]
    ∧ (handlerOk.download_object "b" "k").outcome
        = Except.ok (true, some { data := [104, 105], pos := 0 })
    ∧ handlerCrash.client.download_fileobj "b" "k" = Except.error (PyErr.otherError "boom")
    ∧ (handlerCrash.download_object "b" "k").outcome = Except.ok (false, none) :=
  ⟨rfl,
    (download_object_stream handlerOk "b" "k").1 [104, 105] rfl,
    rfl,
    ((download_object_stream handlerCrash "b" "k").2 (PyErr.otherError "boom") rfl).1⟩

/-- C7: both presigned-URL methods use 3600 seconds when expiration is
omitted; on success they return the SDK-generated URL (with the required POST
fields for uploads), and on a ClientError they return None. -/
theorem presigned_url_contract (self : S3Handler) (bucket key : String) :
    self.get_presigned_download_url bucket key
      = self.get_presigned_download_url bucket key 3600
    ∧ self.get_presigned_upload_url bucket key
      = self.get_presigned_upload_url bucket key 3600
    ∧ ∀ expiration : Int,
      (∀ u, self.client.generate_presigned_url "get_object" bucket key expiration
          = Except.ok u →
        (self.get_presigned_download_url bucket key expiration).outcome
          = Except.ok (some u))
      ∧ (∀ msg, self.client.generate_presigned_url "get_object" bucket key expiration
          = Except.error (PyErr.clientError msg) →
        (self.get_presigned_download_url bucket key expiration).outcome = Except.ok none)
      ∧ (∀ p, self.client.generate_presigned_post bucket key expiration = Except.ok p →
        (self.get_presigned_upload_url bucket key expiration).outcome
          = Except.ok (some p))
      ∧ ∀ msg, self.client.generate_presigned_post bucket key expiration
          = Except.error (PyErr.clientError msg) →
        (self.get_presigned_upload_url bucket key expiration).outcome = Except.ok none := by
  refine ⟨rfl, rfl, fun expiration => ⟨?_, ?_, ?_, ?_⟩⟩
  · intro u hok
    simp only [S3Handler.get_presigned_download_url, hok]
  · intro msg herr
    simp only [S3Handler.get_presigned_download_url, herr, PyErr.isClientError, if_true]
  · intro p hok
    simp only [S3Handler.get_presigned_upload_url, hok]
  · intro msg herr
    simp only [S3Handler.get_presigned_upload_url, herr, PyErr.isClientError, if_true]

/-- Witness for C7 at concrete SDKs: a succeeding one hands back its URL and
its post document, a ClientError-raising one yields None twice. -/
theorem presigned_url_contract_witness :
    handlerOk.client.generate_presigned_url "get_object" "b" "k" 60
      = Except.ok ("http://host/" ++ "b" ++ "/" ++ "k")
    ∧ (handlerOk.get_presigned_download_url "b" "k" 60).outcome
      = Except.ok (some ("http://host/" ++ "b" ++ "/" ++ "k"))
    ∧ handlerOk.client.generate_presigned_post "b" "k" 60
      = Except.ok { url := "http://host/" ++ "b", fields := [("key", "k")] }
    ∧ (handlerOk.get_presigned_upload_url "b" "k" 60).outcome
      = Except.ok (some { url := "http://host/" ++ "b", fields := [("key", "k")] })
    ∧ handlerClientErr.client.generate_presigned_url "get_object" "b" "k" 60
      = Except.error (PyErr.clientError "denied")
    ∧ (handlerClientErr.get_presigned_download_url "b" "k" 60).outcome = Except.ok none
    ∧ handlerClientErr.client.generate_presigned_post "b" "k" 60
      = Except.error (PyErr.clientError "denied")
    ∧ (handlerClientErr.get_presigned_upload_url "b" "k" 60).outcome = Except.ok none :=
  ⟨rfl,
    ((presigned_url_contract handlerOk "b" "k").2.2 60).1
      ("http://host/" ++ "b" ++ "/" ++ "k") rfl,
    rfl,
    ((presigned_url_contract handlerOk "b" "k").2.2 60).2.2.1
      { url := "http://host/" ++ "b", fields := [("key", "k")] } rfl,
    rfl,
    ((presigned_url_contract handlerClientErr "b" "k").2.2 60).2.1 "denied" rfl,
    rfl,
    ((presigned_url_contract handlerClientErr "b" "k").2.2 60).2.2.2 "denied" rfl⟩

/-- C8: no facade method changes the handler: the url, access_key and
secret_key fields and the underlying SDK client are the same objects after
every call, whatever the SDK does. -/
theorem facade_state_unchanged (self : S3Handler) (name path bucket key : String)
    (buf : BufferedReader) (region object_name : Option String) (expiration : Int) :
    (self.get_buckets).self = self
    ∧ (self.create_bucket name region).self = self
    ∧ (self.delete_bucket name).self = self
    ∧ (self.upload_file path bucket object_name).self = self
    ∧ (self.upload_file_binary buf bucket object_name).self = self
    ∧ (self.delete_object bucket key).self = self
    ∧ (self.download_object bucket key).self = self
    ∧ (self.get_presigned_download_url bucket key expiration).self = self
    ∧ (self.get_presigned_upload_url bucket key expiration).self = self := by
  refine ⟨?_, ?_, ?_, ?_, ?_, ?_, ?_, ?_, ?_⟩
  · unfold S3Handler.get_buckets
    split <;> rfl
  · unfold S3Handler.create_bucket
    split
    · rfl
    · split <;> rfl
  · unfold S3Handler.delete_bucket
    split <;> rfl
  · simp only [S3Handler.upload_file]
    split
    · rfl
    · split <;> rfl
  · simp only [S3Handler.upload_file_binary]
    split
    · rfl
    · split
      · rfl
      · split <;> rfl
  · unfold S3Handler.delete_object
    split <;> rfl
  · simp only [S3Handler.download_object]
    split <;> rfl
  · unfold S3Handler.get_presigned_download_url
    split
    · rfl
    · split <;> rfl
  · unfold S3Handler.get_presigned_upload_url
    split
    · rfl
    · split <;> rfl

/-- C9: calling upload_file_binary without an object name on a buffer that
has no associated file name raises an AttributeError that escapes; the
(False, None) sentinel is not returned and nothing is logged. -/
theorem upload_file_binary_no_name_raises (self : S3Handler) (buf : BufferedReader)
    (bucket : String) (h : buf.name = none) :
    (self.upload_file_binary buf bucket).outcome
      = Except.error (PyErr.attributeError "object has no attribute name")
    ∧ (self.upload_file_binary buf bucket).outcome ≠ Except.ok (false, none)
    ∧ (self.upload_file_binary buf bucket).log = [] := by
  have h1 : (self.upload_file_binary buf bucket).outcome
      = Except.error (PyErr.attributeError "object has no attribute name") := by
    simp only [S3Handler.upload_file_binary, h]
  refine ⟨h1, ?_, ?_⟩
  · rw [h1]
    exact fun hc => Except.noConfusion hc
  · simp only [S3Handler.upload_file_binary, h]

/-- Witness for C9: a concrete nameless buffer makes upload_file_binary
raise even over an SDK whose uploads would succeed. -/
theorem upload_file_binary_no_name_raises_witness :
    (BufferedReader.mk none [7]).name = none
    ∧ (handlerOk.upload_file_binary (BufferedReader.mk none [7]) "b").outcome
      = Except.error (PyErr.attributeError "object has no attribute name")
    ∧ (handlerOk.upload_file_binary (BufferedReader.mk none [7]) "b").outcome
      ≠ Except.ok (false, none) :=
  ⟨rfl,
    (upload_file_binary_no_name_raises handlerOk (BufferedReader.mk none [7]) "b" rfl).1,
    (upload_file_binary_no_name_raises handlerOk (BufferedReader.mk none [7]) "b" rfl).2.1⟩

/-- C10: on a successful upload with bucket b and resolved key k, both upload
methods return exactly the string s3:// ++ b ++ / ++ k as the URI. -/
theorem upload_uri_format (self : S3Handler) (path b k : String) (buf : BufferedReader) :
    (self.client.upload_file path b k = Except.ok () →
      (self.upload_file path b (some k)).outcome
        = Except.ok (true, some ("s3://" ++ b ++ "/" ++ k)))
    ∧ (self.client.upload_fileobj buf b k = Except.ok () →
      (self.upload_file_binary buf b (some k)).outcome
        = Except.ok (true, some ("s3://" ++ b ++ "/" ++ k))) := by
  constructor
  · intro hok
    simp only [S3Handler.upload_file, hok]
  · intro hok
    simp only [S3Handler.upload_file_binary, hok]

/-- Witness for C10: concrete successful uploads produce the concatenated
URI. -/
theorem upload_uri_format_witness :
    handlerOk.client.upload_file "/tmp/a.txt" "testbucket" "a.txt" = Except.ok ()
    ∧ (handlerOk.upload_file "/tmp/a.txt" "testbucket" (some "a.txt")).outcome
      = Except.ok (true, some ("s3://" ++ "testbucket" ++ "/" ++ "a.txt"))
    ∧ handlerOk.client.upload_fileobj (BufferedReader.mk (some "/tmp/a.txt") [1])
        "testbucket" "a.txt" = Except.ok ()
    ∧ (handlerOk.upload_file_binary (BufferedReader.mk (some "/tmp/a.txt") [1])
        "testbucket" (some "a.txt")).outcome
      = Except.ok (true, some ("s3://" ++ "testbucket" ++ "/" ++ "a.txt")) :=
  ⟨rfl,
    (upload_uri_format handlerOk "/tmp/a.txt" "testbucket" "a.txt"
      (BufferedReader.mk (some "/tmp/a.txt") [1])).1 rfl,
    rfl,
    (upload_uri_format handlerOk "/tmp/a.txt" "testbucket" "a.txt"
      (BufferedReader.mk (some "/tmp/a.txt") [1])).2 rfl⟩

end SeaweedS3Client
